import Mathlib

/-!
Shallow embedding of `src/flask_security/totp.py` (the `Totp` class, a thin
wrapper around the passlib TOTP library) together with the parts of the token
library that the wrapper calls into.  The wrapper's own logic — constructor
validation, the `try/except TokenError` shape of `verify_totp`, the value
passed to `set_last_counter`, the default no-op last-counter accessors and the
default `window=0` argument — is translated directly from the source.  The
token library itself (secret encryption/decryption, the windowed counter
search, the replay check and the `TotpMatch` result object) is not part of
this repository's sources, so those operations are modelled from the spec
(sections 4.1–4.4): each such definition carries a doc comment saying so.

The HMAC-based code derivation is out of scope for both the spec and the
repository ("assumed available from a standard cryptographic primitives
library"), so every statement is parameterised by an arbitrary pure code
function `g : Secret → Nat → Nat` giving the code of a secret at a counter.
-/

namespace FlaskSecurity

/-- A per-user shared secret: an opaque byte string (spec §3 "Secret"). -/
abbrev Secret := List Nat

/-- Symmetric encryption key material (spec §3 "KeyRing" values). -/
abbrev Key := Nat

/-- Key identifier (spec §3 "KeyRing" keys). -/
abbrev KeyId := String

/-- The keyring: mapping from key id to key material, modelled as an
association list whose head is the designated "current" key (spec §3). -/
abbrev KeyRing := List (KeyId × Key)

/-- The dynamic Python value passed as `secrets` to `Totp.__init__`
(src line 28): either a dict (modelled as an association list) or some
non-dict value, which the constructor must reject. -/
inductive SecretsConfig where
  | dict (entries : KeyRing)
  | notDict

/-- The `ValueError` raised by `Totp.__init__` on a bad `secrets` argument
(src line 34). -/
inductive InitError where
  | valueError
  deriving DecidableEq

/-- The `Totp` factory object (src class `Totp`): after construction it holds
the validated non-empty keyring and the issuer. -/
structure Totp where
  secrets : KeyRing
  issuer : String
  nonempty : secrets ≠ []

/-- `Totp.__init__` (src lines 28–35): raise `ValueError` unless `secrets`
is a dict with at least one entry. -/
def Totp.init (secrets : SecretsConfig) (issuer : String) : Except InitError Totp :=
  match secrets with
  | .notDict => .error .valueError
  | .dict [] => .error .valueError
  | .dict (e :: es) => .ok ⟨e :: es, issuer, by simp⟩

/-- Failures of the secret codec (spec §4.1 / §7): `UnknownKeyError` when the
envelope's key id is no longer in the keyring, `DecryptError` when the
ciphertext fails its integrity check. -/
inductive CodecError where
  | unknownKey
  | decryptError
  deriving DecidableEq

/-- The encrypted-secret envelope (spec §3 "EncryptedSecretEnvelope"):
self-describing ciphertext tagged with the key id used, an integrity tag and
the frozen step duration.  In the source this is the JSON string produced by
`to_json(encrypt=True)` (src line 50). -/
structure Envelope where
  keyId : KeyId
  ct : List Nat
  tag : Nat
  period : Nat
  deriving DecidableEq

/-- Modelled from the spec: SecretCodec `encrypt` (spec §4.1) — missing from
src/, which delegates to the token library.  Encrypts under the keyring's
current key (the head entry) and tags the envelope with that key id, an
integrity tag and the frozen step duration. -/
def Totp.encryptSecret (t : Totp) (raw : Secret) (period : Nat) : Envelope :=
  let kid := (t.secrets.head t.nonempty).1
  let k := (t.secrets.head t.nonempty).2
  let ct := raw.map (fun b => b + k)
  { keyId := kid, ct := ct, tag := ct.sum + k, period := period }

/-- `Totp.generate_totp_secret` (src lines 43–50): create a user-unique
secret and return it encrypted.  The cryptographically random draw is not
modelled; the drawn raw bytes are an argument. -/
def Totp.generate_totp_secret (t : Totp) (raw : Secret) (period : Nat) : Envelope :=
  t.encryptSecret raw period

/-- Modelled from the spec: SecretCodec `decrypt` (spec §4.1) — missing from
src/, which delegates to the token library.  Looks up the tagged key id
(absent key id fails with `UnknownKeyError`), checks the integrity tag
(mismatch fails with `DecryptError`), then recovers the secret bytes. -/
def Totp.decryptSecret (t : Totp) (e : Envelope) : Except CodecError Secret :=
  match t.secrets.lookup e.keyId with
  | none => .error .unknownKey
  | some k =>
    if e.tag = e.ct.sum + k then .ok (e.ct.map (fun b => b - k))
    else .error .decryptError

/-- `Totp.generate_totp_password` (src lines 37–41): decrypt the stored
secret and generate the code at the current time step, parameterised by the
code primitive `g`. -/
def Totp.generate_totp_password (t : Totp) (g : Secret → Nat → Nat)
    (e : Envelope) (time : Nat) : Except CodecError Nat :=
  (t.decryptSecret e).map (fun s => g s (time / e.period))

/-- Modelled from the spec: the match-result object returned by the token
library's verify (spec §3 "VerificationOutcome", `Matched(counter)`).  The
library's `TotpMatch` records the matched counter together with the
verification time (src line 104 docstring: "a TotpMatch as returned from
totp.verify()"). -/
structure TotpMatch where
  counter : Nat
  time : Nat
  deriving DecidableEq

/-- The dynamic Python value a subclass may hold in its last-counter cell:
either a bare integer counter (spec §3 "LastCounter") or the `TotpMatch`
object the source actually passes to `set_last_counter` (src line 76). -/
inductive LastVal where
  | int (n : Nat)
  | tmatch (m : TotpMatch)
  deriving DecidableEq

/-- The counter carried by a stored last-counter value. -/
def LastVal.counterOf : LastVal → Nat
  | .int n => n
  | .tmatch m => m.counter

/-- Modelled from the spec: the token library's `TokenError` hierarchy
(spec §7 "NoMatch") — no counter in the window matched, or the matched
counter failed the replay check. -/
inductive TokenError where
  | invalidToken
  | usedToken
  deriving DecidableEq

/-- Modelled from the spec: the order in which TokenEngine searches the
inclusive counter range `[center - w, center + w]` — smallest absolute
distance from `center` first (spec §4.2).  Counters are non-negative, so
`center - d` truncates at 0. -/
def searchOrder (center : Nat) : Nat → List Nat
  | 0 => [center]
  | w + 1 => searchOrder center w ++ [center - (w + 1), center + (w + 1)]

/-- Modelled from the spec: TokenEngine `find_matching_counter` (spec §4.2) —
the first counter in the search order whose code equals the submitted one. -/
def findMatch (code : Nat → Nat) (token : Nat) (center w : Nat) : Option Nat :=
  (searchOrder center w).find? (fun c => code c == token)

/-- Modelled from the spec: ReplayGuard `admissible` (spec §4.3) — a
candidate counter is admissible only if no last value is stored or the
candidate is strictly greater than the stored value's counter. -/
def admissible (c : Nat) (last : Option LastVal) : Bool :=
  match last with
  | none => true
  | some v => decide (v.counterOf < c)

/-- Modelled from the spec: the token library's windowed match with replay
check, steps 2–6 of the Verifier (spec §4.4): derive the center counter from
the time and step duration, convert the window from seconds to counters,
search for a matching counter, then apply the replay check against the
caller-supplied last value; failures raise `TokenError`s. -/
def totpMatchVerify (code : Nat → Nat) (token time period window : Nat)
    (last : Option LastVal) : Except TokenError TotpMatch :=
  let center := time / period
  let w := window / period
  match findMatch code token center w with
  | none => .error .invalidToken
  | some c =>
    if admissible c last then .ok ⟨c, time⟩ else .error .usedToken

/-- An exception escaping `verify_totp`: only codec failures do — the
`except TokenError` clause (src line 78) swallows token errors. -/
inductive VerifyError where
  | codec (e : CodecError)
  deriving DecidableEq

/-- Observable outcome of one `verify_totp` call: the returned value (or the
propagated exception) together with the list of values passed to
`set_last_counter`, in call order. -/
structure VerifyOut where
  result : Except VerifyError Bool
  writes : List LastVal

/-- `Totp.verify_totp` (src lines 52–79): run the library verify with the
value fetched by `get_last_counter` as `last_counter`; on success call
`set_last_counter` with the returned `TotpMatch` object and return `True`;
on `TokenError` return `False`; let any other failure propagate.  The value
previously stored by the collaborator is the `stored` argument. -/
def Totp.verify_totp (t : Totp) (g : Secret → Nat → Nat) (token : Nat)
    (e : Envelope) (stored : Option LastVal) (time window : Nat) : VerifyOut :=
  match t.decryptSecret e with
  | .error err => ⟨.error (.codec err), []⟩
  | .ok s =>
    match totpMatchVerify (g s) token time e.period window stored with
    | .error _ => ⟨.ok false, []⟩
    | .ok m => ⟨.ok true, [.tmatch m]⟩

/-- `Totp.verify_totp` with the `window` argument omitted: the source's
signature defaults it to 0 (src line 52). -/
def Totp.verify_totp_default (t : Totp) (g : Secret → Nat → Nat) (token : Nat)
    (e : Envelope) (stored : Option LastVal) (time : Nat) : VerifyOut :=
  t.verify_totp g token e stored time 0

/-- Replay the recorded `set_last_counter` calls against a collaborator cell
that stores what it is given (each call overwrites the cell). -/
def applyWrites (stored : Option LastVal) (ws : List LastVal) : Option LastVal :=
  ws.foldl (fun _ v => some v) stored

/-- `Totp.get_last_counter` default implementation (src lines 91–96):
always returns `None`, whatever the collaborator cell holds. -/
def Totp.get_last_counter (_t : Totp) (_cell : Option LastVal) : Option LastVal :=
  none

/-- `Totp.set_last_counter` default implementation (src lines 99–105):
`pass` — the collaborator cell is left unchanged. -/
def Totp.set_last_counter (_t : Totp) (cell : Option LastVal) (_v : LastVal) :
    Option LastVal :=
  cell

/-- Two successive `verify_totp` calls for the same submitted token using the
default (non-overridden) last-counter accessors: each call reads the last
value through `Totp.get_last_counter` and the writes of the first call pass
through `Totp.set_last_counter` before the second call reads. -/
def Totp.verify_twice_default (t : Totp) (g : Secret → Nat → Nat) (token : Nat)
    (e : Envelope) (cell : Option LastVal) (time : Nat) (window : Nat) :
    Except VerifyError Bool × Except VerifyError Bool :=
  let out1 := t.verify_totp g token e (t.get_last_counter cell) time window
  let cell1 := out1.writes.foldl (fun cl v => t.set_last_counter cl v) cell
  let out2 := t.verify_totp g token e (t.get_last_counter cell1) time window
  (out1.result, out2.result)

/-- Concrete code primitive used by witnesses: the code of any secret at
counter `c` is `c` itself (a legitimate pure code function). -/
def gEx : Secret → Nat → Nat := fun _ c => c

/-- Concrete factory used by witnesses: one key `"k" ↦ 5`, issuer `"iss"`. -/
def tEx : Totp := ⟨[("k", 5)], "iss", by simp⟩

/-- Concrete raw secret bytes used by witnesses. -/
def rawEx : Secret := [1, 2]

/-- Concrete envelope used by witnesses: `rawEx` enrolled with a 30-second
step. -/
def envEx : Envelope := tEx.generate_totp_secret rawEx 30

/-- An envelope whose key id was rotated out of the keyring. -/
def envBadKey : Envelope := { keyId := "zz", ct := [6, 7], tag := 18, period := 30 }

/-- An envelope whose ciphertext integrity tag does not check out. -/
def envTampered : Envelope := { keyId := "k", ct := [6, 9], tag := 18, period := 30 }

/-! ## Helper lemmas -/

/-- The step duration frozen into a generated envelope is the one supplied. -/
theorem generate_period (t : Totp) (raw : Secret) (p : Nat) :
    (t.generate_totp_secret raw p).period = p :=
  rfl

/-- Any counter at distance `d ≤ w` below the center is searched. -/
theorem mem_searchOrder_sub (center : Nat) {d w : Nat} (h : d ≤ w) :
    center - d ∈ searchOrder center w := by
  induction w with
  | zero =>
    have hd : d = 0 := Nat.le_zero.mp h
    simp [searchOrder, hd]
  | succ w ih =>
    rw [searchOrder]
    rcases Nat.lt_or_ge d (w + 1) with hd | hd
    · exact List.mem_append_left _ (ih (Nat.lt_succ_iff.mp hd))
    · have hdw : d = w + 1 := Nat.le_antisymm h hd
      subst hdw
      exact List.mem_append_right _ (by simp)

/-- Any counter at distance `d ≤ w` above the center is searched. -/
theorem mem_searchOrder_add (center : Nat) {d w : Nat} (h : d ≤ w) :
    center + d ∈ searchOrder center w := by
  induction w with
  | zero =>
    have hd : d = 0 := Nat.le_zero.mp h
    simp [searchOrder, hd]
  | succ w ih =>
    rw [searchOrder]
    rcases Nat.lt_or_ge d (w + 1) with hd | hd
    · exact List.mem_append_left _ (ih (Nat.lt_succ_iff.mp hd))
    · have hdw : d = w + 1 := Nat.le_antisymm h hd
      subst hdw
      exact List.mem_append_right _ (by simp)

/-- Decrypting a freshly generated envelope with the same keyring recovers
the raw secret bytes. -/
theorem decryptSecret_generate (t : Totp) (raw : Secret) (p : Nat) :
    t.decryptSecret (t.generate_totp_secret raw p) = .ok raw := by
  obtain ⟨secrets, issuer, h⟩ := t
  match secrets, h with
  | (kid, k) :: rest, _ =>
    simp [Totp.generate_totp_secret, Totp.encryptSecret, Totp.decryptSecret,
      List.lookup, List.map_map, Function.comp_def, Nat.add_sub_cancel]

/-! ## Claim theorems -/

/-- C4: constructing the `Totp` factory with a key configuration that is
empty or not a mapping fails with the constructor's configuration error
(`ValueError`, src line 34) before any secret can be generated, and for
every non-empty dict of secrets construction does not raise this error. -/
theorem init_rejects_empty_or_nonmapping_config (secrets : SecretsConfig)
    (issuer : String) :
    (Totp.init secrets issuer = .error .valueError ↔
      (secrets = .notDict ∨ secrets = .dict [])) ∧
    (∀ e es, secrets = .dict (e :: es) →
      (Totp.init secrets issuer).isOk = true) := by
  constructor
  · cases secrets with
    | notDict => simp [Totp.init]
    | dict es => cases es <;> simp [Totp.init]
  · rintro e es rfl
    rfl

/-- Witness for C4 at concrete inputs: the empty dict and a non-dict value
are rejected, a one-entry dict is accepted. -/
theorem init_rejects_empty_or_nonmapping_config_witness :
    Totp.init (.dict []) "iss" = .error .valueError ∧
    Totp.init .notDict "iss" = .error .valueError ∧
    (Totp.init (.dict [("k", 5)]) "iss").isOk = true :=
  ⟨(init_rejects_empty_or_nonmapping_config (.dict []) "iss").1.mpr (Or.inr rfl),
   (init_rejects_empty_or_nonmapping_config .notDict "iss").1.mpr (Or.inl rfl),
   (init_rejects_empty_or_nonmapping_config (.dict [("k", 5)]) "iss").2
     ("k", 5) [] rfl⟩

/-- C8: a secret produced by `generate_totp_secret` decrypts, with the same
keyring, back to the original secret bytes, and consequently
`generate_totp_password` on the envelope yields exactly the code of the
original secret at every time step. -/
theorem generate_decrypt_roundtrip (t : Totp) (raw : Secret) (p : Nat) :
    t.decryptSecret (t.generate_totp_secret raw p) = .ok raw ∧
    ∀ (g : Secret → Nat → Nat) (time : Nat),
      t.generate_totp_password g (t.generate_totp_secret raw p) time =
        .ok (g raw (time / p)) := by
  refine ⟨decryptSecret_generate t raw p, fun g time => ?_⟩
  simp [Totp.generate_totp_password, decryptSecret_generate, generate_period,
    Except.map]

/-- C2 counterexample: the value `verify_totp` passes to `set_last_counter`
(src line 76) is the `TotpMatch` object, not the matched counter as an
integer.  Two successful verifications matching the same counter 100 at
times 3000 and 3010 write different values — both of the form
`LastVal.tmatch`, neither equal to the bare integer 100 — whereas the claim
implies both writes would be the identical integer 100. -/
theorem verify_totp_does_not_write_bare_counter :
    (tEx.verify_totp gEx 100 envEx none 3000 0).result = .ok true ∧
    (tEx.verify_totp gEx 100 envEx none 3010 0).result = .ok true ∧
    (tEx.verify_totp gEx 100 envEx none 3000 0).writes =
      [.tmatch ⟨100, 3000⟩] ∧
    (tEx.verify_totp gEx 100 envEx none 3010 0).writes =
      [.tmatch ⟨100, 3010⟩] ∧
    (LastVal.tmatch ⟨100, 3000⟩ ≠ LastVal.int 100) ∧
    (tEx.verify_totp gEx 100 envEx none 3000 0).writes ≠
      (tEx.verify_totp gEx 100 envEx none 3010 0).writes :=
  ⟨rfl, rfl, rfl, rfl, by decide, by decide⟩

/-- C2 amended: on every successful verification the core calls
`set_last_counter` exactly once, passing the `TotpMatch` object returned by
the library's verify — an object carrying the matched counter (and the
verification time), not the bare counter integer. -/
theorem verify_totp_writes_match_object_on_success (t : Totp)
    (g : Secret → Nat → Nat) (token : Nat) (e : Envelope)
    (stored : Option LastVal) (time window : Nat) (s : Secret) (c : Nat)
    (hd : t.decryptSecret e = .ok s)
    (hm : findMatch (g s) token (time / e.period) (window / e.period) = some c)
    (ha : admissible c stored = true) :
    (t.verify_totp g token e stored time window).result = .ok true ∧
    (t.verify_totp g token e stored time window).writes =
      [.tmatch ⟨c, time⟩] ∧
    (LastVal.tmatch ⟨c, time⟩).counterOf = c := by
  refine ⟨?_, ?_, rfl⟩ <;>
    simp [Totp.verify_totp, totpMatchVerify, hd, hm, ha]

/-- Witness for the amended C2 at concrete inputs. -/
theorem verify_totp_writes_match_object_on_success_witness :
    (tEx.verify_totp gEx 100 envEx none 3000 0).result = .ok true ∧
    (tEx.verify_totp gEx 100 envEx none 3000 0).writes =
      [.tmatch ⟨100, 3000⟩] ∧
    (LastVal.tmatch ⟨100, 3000⟩).counterOf = 100 :=
  verify_totp_writes_match_object_on_success tEx gEx 100 envEx none 3000 0
    rawEx 100 rfl rfl rfl

/-- C1: once a verification has been accepted — writing a last value whose
counter is `n` — a later `verify_totp` call that reads back exactly what was
written rejects any submitted code whose matching counter is at most `n`,
returning `false`, even though that counter was found inside the search
window. -/
theorem verify_totp_rejects_replayed_counter (t : Totp)
    (g : Secret → Nat → Nat) (token1 token2 : Nat) (e1 e2 : Envelope)
    (stored : Option LastVal) (time1 time2 w1 w2 : Nat) (v : LastVal)
    (s2 : Secret) (c : Nat)
    (h1 : (t.verify_totp g token1 e1 stored time1 w1).result = .ok true)
    (hw : (t.verify_totp g token1 e1 stored time1 w1).writes = [v])
    (hd2 : t.decryptSecret e2 = .ok s2)
    (hm2 : findMatch (g s2) token2 (time2 / e2.period) (w2 / e2.period) = some c)
    (hc : c ≤ v.counterOf) :
    (t.verify_totp g token2 e2
        (applyWrites stored (t.verify_totp g token1 e1 stored time1 w1).writes)
        time2 w2).result = .ok false := by
  rw [hw]
  have hstored : applyWrites stored [v] = some v := rfl
  rw [hstored]
  have hadm : admissible c (some v) = false := by
    simp [admissible, Nat.not_lt.mpr hc]
  simp [Totp.verify_totp, totpMatchVerify, hd2, hm2, hadm]

/-- Witness for C1: counter 100 accepted at time 3000; resubmitting the same
code at time 3010 (same time step, still inside the window) fails. -/
theorem verify_totp_rejects_replayed_counter_witness :
    ((tEx.verify_totp gEx 100 envEx none 3000 0).result = .ok true) ∧
    (tEx.verify_totp gEx 100 envEx
        (applyWrites none (tEx.verify_totp gEx 100 envEx none 3000 0).writes)
        3010 0).result = .ok false :=
  ⟨rfl,
   verify_totp_rejects_replayed_counter tEx gEx 100 100 envEx envEx none
     3000 3010 0 0 (.tmatch ⟨100, 3000⟩) rawEx 100 rfl rfl rfl rfl
     (by decide)⟩

/-- C3: `set_last_counter` is invoked exactly once if and only if
`verify_totp` returns `true`; on any other outcome no write occurs and a
collaborator cell holding the last counter is left unchanged. -/
theorem verify_totp_write_iff_success (t : Totp) (g : Secret → Nat → Nat)
    (token : Nat) (e : Envelope) (stored : Option LastVal) (time window : Nat) :
    ((t.verify_totp g token e stored time window).writes.length = 1 ↔
      (t.verify_totp g token e stored time window).result = .ok true) ∧
    ((t.verify_totp g token e stored time window).result ≠ .ok true →
      (t.verify_totp g token e stored time window).writes = [] ∧
      applyWrites stored (t.verify_totp g token e stored time window).writes =
        stored) := by
  unfold Totp.verify_totp
  cases hd : t.decryptSecret e with
  | error err => simp [applyWrites]
  | ok s =>
    cases hv : totpMatchVerify (g s) token time e.period window stored with
    | error te => simp [applyWrites, hv]
    | ok m => simp [applyWrites, hv]

/-- Witness for C3 at concrete inputs (a failing submission). -/
theorem verify_totp_write_iff_success_witness :
    (((tEx.verify_totp gEx 7 envEx none 3000 0).writes.length = 1 ↔
      (tEx.verify_totp gEx 7 envEx none 3000 0).result = .ok true) ∧
    ((tEx.verify_totp gEx 7 envEx none 3000 0).result ≠ .ok true →
      (tEx.verify_totp gEx 7 envEx none 3000 0).writes = [] ∧
      applyWrites none (tEx.verify_totp gEx 7 envEx none 3000 0).writes =
        none)) :=
  verify_totp_write_iff_success tEx gEx 7 envEx none 3000 0

/-- C5: when decrypting the stored secret envelope fails (rotated-out key id
or tampered ciphertext), `verify_totp` propagates the failure to the caller
instead of returning `false`; conversely a `false` return can only come from
a token no-match/replay error raised after a successful decryption. -/
theorem verify_totp_propagates_codec_failures (t : Totp)
    (g : Secret → Nat → Nat) (token : Nat) (e : Envelope)
    (stored : Option LastVal) (time window : Nat) :
    (∀ err, t.decryptSecret e = .error err →
      (t.verify_totp g token e stored time window).result =
        .error (.codec err)) ∧
    ((t.verify_totp g token e stored time window).result = .ok false →
      ∃ s te, t.decryptSecret e = .ok s ∧
        totpMatchVerify (g s) token time e.period window stored =
          .error te) := by
  constructor
  · intro err herr
    simp [Totp.verify_totp, herr]
  · intro hfalse
    cases hd : t.decryptSecret e with
    | error err => simp [Totp.verify_totp, hd] at hfalse
    | ok s =>
      simp only [Totp.verify_totp, hd] at hfalse
      cases hv : totpMatchVerify (g s) token time e.period window stored with
      | error te => exact ⟨s, te, rfl, hv⟩
      | ok m => simp [hv] at hfalse

/-- Witness for C5: a rotated-out key id and a tampered ciphertext both
surface as codec errors from `verify_totp`, not as `false`. -/
theorem verify_totp_propagates_codec_failures_witness :
    (tEx.verify_totp gEx 1 envBadKey none 3000 0).result =
      .error (.codec .unknownKey) ∧
    (tEx.verify_totp gEx 1 envTampered none 3000 0).result =
      .error (.codec .decryptError) :=
  ⟨(verify_totp_propagates_codec_failures tEx gEx 1 envBadKey none 3000 0).1
      .unknownKey rfl,
   (verify_totp_propagates_codec_failures tEx gEx 1 envTampered none 3000 0).1
      .decryptError rfl⟩

/-- C6: a run failing because no counter in the window matches and a run
failing because the matched counter is rejected by the replay check return
the identical plain `false` — the caller cannot distinguish the two failure
causes. -/
theorem verify_totp_failures_indistinguishable (t1 t2 : Totp)
    (g1 g2 : Secret → Nat → Nat) (token1 token2 : Nat) (e1 e2 : Envelope)
    (stored1 stored2 : Option LastVal) (time1 time2 w1 w2 : Nat)
    (s1 s2 : Secret) (c : Nat)
    (hd1 : t1.decryptSecret e1 = .ok s1)
    (hm1 : findMatch (g1 s1) token1 (time1 / e1.period) (w1 / e1.period) =
      none)
    (hd2 : t2.decryptSecret e2 = .ok s2)
    (hm2 : findMatch (g2 s2) token2 (time2 / e2.period) (w2 / e2.period) =
      some c)
    (ha : admissible c stored2 = false) :
    (t1.verify_totp g1 token1 e1 stored1 time1 w1).result =
      (t2.verify_totp g2 token2 e2 stored2 time2 w2).result ∧
    (t1.verify_totp g1 token1 e1 stored1 time1 w1).result = .ok false := by
  constructor <;>
    simp [Totp.verify_totp, totpMatchVerify, hd1, hd2, hm1, hm2, ha]

/-- Witness for C6: a wrong code (42, matching nothing) and a replayed code
(100 with stored last counter 100) both yield exactly `.ok false`. -/
theorem verify_totp_failures_indistinguishable_witness :
    (tEx.verify_totp gEx 42 envEx none 3000 0).result =
      (tEx.verify_totp gEx 100 envEx (some (.int 100)) 3010 0).result ∧
    (tEx.verify_totp gEx 42 envEx none 3000 0).result = .ok false :=
  verify_totp_failures_indistinguishable tEx tEx gEx gEx 42 100 envEx envEx
    none (some (.int 100)) 3000 3010 0 0 rawEx rawEx 100 rfl rfl rfl rfl rfl

/-- C7: with the non-overridden accessors, `get_last_counter` returns `None`
for every cell state and `set_last_counter` leaves the cell unchanged, so
every matching counter is admissible: a code that verified once verifies
`true` again when resubmitted — anti-replay is disabled by default. -/
theorem default_accessors_disable_replay (t : Totp) (g : Secret → Nat → Nat)
    (token : Nat) (e : Envelope) (cell : Option LastVal) (time window : Nat)
    (s : Secret) (c : Nat)
    (hd : t.decryptSecret e = .ok s)
    (hm : findMatch (g s) token (time / e.period) (window / e.period) =
      some c) :
    (∀ cl, t.get_last_counter cl = none) ∧
    (∀ cl v, t.set_last_counter cl v = cl) ∧
    t.verify_twice_default g token e cell time window = (.ok true, .ok true) := by
  refine ⟨fun _ => rfl, fun _ _ => rfl, ?_⟩
  simp [Totp.verify_twice_default, Totp.verify_totp, Totp.get_last_counter,
    totpMatchVerify, hd, hm, admissible]

/-- Witness for C7: the same code is accepted twice in a row under the
default accessors. -/
theorem default_accessors_disable_replay_witness :
    (∀ cl, tEx.get_last_counter cl = none) ∧
    (∀ cl v, tEx.set_last_counter cl v = cl) ∧
    tEx.verify_twice_default gEx 100 envEx none 3000 0 =
      (.ok true, .ok true) :=
  default_accessors_disable_replay tEx gEx 100 envEx none 3000 0 rawEx 100
    rfl rfl

/-- C9: verification searches the inclusive counter range
`[center - w, center + w]` (with `center = time / period` and
`w = window_seconds / period`): a code generated at counter exactly
`center - w` verifies `true`, while a code generated at `center - w - 1` —
one step outside, matching no counter inside the window — verifies `false`
(no replay state stored). -/
theorem window_boundaries_inclusive (t : Totp) (g : Secret → Nat → Nat)
    (raw : Secret) (time wsec p : Nat)
    (hW : wsec / p + 1 ≤ time / p)
    (hnc : ∀ c ∈ searchOrder (time / p) (wsec / p),
      g raw c ≠ g raw (time / p - wsec / p - 1)) :
    (t.verify_totp g (g raw (time / p - wsec / p))
        (t.generate_totp_secret raw p) none time wsec).result = .ok true ∧
    (t.verify_totp g (g raw (time / p - wsec / p - 1))
        (t.generate_totp_secret raw p) none time wsec).result = .ok false := by
  have hper : (t.generate_totp_secret raw p).period = p := rfl
  have hdec := decryptSecret_generate t raw p
  constructor
  · have hsome : (findMatch (g raw) (g raw (time / p - wsec / p))
        (time / p) (wsec / p)).isSome := by
      unfold findMatch
      rw [List.find?_isSome]
      exact ⟨time / p - wsec / p,
        mem_searchOrder_sub _ (Nat.le_refl (wsec / p)), by simp⟩
    obtain ⟨c, hc⟩ := Option.isSome_iff_exists.mp hsome
    simp [Totp.verify_totp, totpMatchVerify, hdec, hper, hc, admissible]
  · have hnone : findMatch (g raw) (g raw (time / p - wsec / p - 1))
        (time / p) (wsec / p) = none := by
      unfold findMatch
      rw [List.find?_eq_none]
      intro c hcmem
      simpa using hnc c hcmem
    simp [Totp.verify_totp, totpMatchVerify, hdec, hper, hnone]

/-- Witness for C9: step 30s, time 3000 (center 100), window 60s (2 steps):
the code for counter 98 (= center − 2) is accepted, the code for counter 97
(= center − 3, one step outside) is rejected. -/
theorem window_boundaries_inclusive_witness :
    (tEx.verify_totp gEx (gEx rawEx (3000 / 30 - 60 / 30))
        (tEx.generate_totp_secret rawEx 30) none 3000 60).result = .ok true ∧
    (tEx.verify_totp gEx (gEx rawEx (3000 / 30 - 60 / 30 - 1))
        (tEx.generate_totp_secret rawEx 30) none 3000 60).result =
      .ok false :=
  window_boundaries_inclusive tEx gEx rawEx 3000 60 30 (by decide) (by decide)

/-- C10: omitting the `window` argument means window 0 — exact-current-step
matching: a code valid only for the previous or the next time step fails
under the default, and succeeds once a positive window (one step worth of
seconds) is supplied. -/
theorem default_window_is_exact_step (t : Totp) (g : Secret → Nat → Nat)
    (raw : Secret) (time p : Nat)
    (hp : 0 < p)
    (hc : 1 ≤ time / p)
    (hprev : g raw (time / p - 1) ≠ g raw (time / p))
    (hnext : g raw (time / p + 1) ≠ g raw (time / p)) :
    (∀ token stored,
      t.verify_totp_default g token (t.generate_totp_secret raw p) stored
          time =
        t.verify_totp g token (t.generate_totp_secret raw p) stored time 0) ∧
    (t.verify_totp_default g (g raw (time / p - 1))
        (t.generate_totp_secret raw p) none time).result = .ok false ∧
    (t.verify_totp_default g (g raw (time / p + 1))
        (t.generate_totp_secret raw p) none time).result = .ok false ∧
    (t.verify_totp g (g raw (time / p - 1))
        (t.generate_totp_secret raw p) none time p).result = .ok true ∧
    (t.verify_totp g (g raw (time / p + 1))
        (t.generate_totp_secret raw p) none time p).result = .ok true := by
  have hper : (t.generate_totp_secret raw p).period = p := rfl
  have hdec := decryptSecret_generate t raw p
  have hw0 : (0 : Nat) / p = 0 := Nat.zero_div p
  have hw1 : p / p = 1 := Nat.div_self hp
  refine ⟨fun _ _ => rfl, ?_, ?_, ?_, ?_⟩
  · have hnone : findMatch (g raw) (g raw (time / p - 1)) (time / p) 0 =
        none := by
      unfold findMatch
      rw [List.find?_eq_none]
      intro c hcmem
      simp [searchOrder] at hcmem
      subst hcmem
      simpa using fun h => hprev h.symm
    simp [Totp.verify_totp_default, Totp.verify_totp, totpMatchVerify, hdec,
      hper, hw0, hnone]
  · have hnone : findMatch (g raw) (g raw (time / p + 1)) (time / p) 0 =
        none := by
      unfold findMatch
      rw [List.find?_eq_none]
      intro c hcmem
      simp [searchOrder] at hcmem
      subst hcmem
      simpa using fun h => hnext h.symm
    simp [Totp.verify_totp_default, Totp.verify_totp, totpMatchVerify, hdec,
      hper, hw0, hnone]
  · have hsome : (findMatch (g raw) (g raw (time / p - 1))
        (time / p) 1).isSome := by
      unfold findMatch
      rw [List.find?_isSome]
      exact ⟨time / p - 1, mem_searchOrder_sub _ (Nat.le_refl 1), by simp⟩
    obtain ⟨c, hcm⟩ := Option.isSome_iff_exists.mp hsome
    simp [Totp.verify_totp, totpMatchVerify, hdec, hper, hw1, hcm, admissible]
  · have hsome : (findMatch (g raw) (g raw (time / p + 1))
        (time / p) 1).isSome := by
      unfold findMatch
      rw [List.find?_isSome]
      exact ⟨time / p + 1, mem_searchOrder_add _ (Nat.le_refl 1), by simp⟩
    obtain ⟨c, hcm⟩ := Option.isSome_iff_exists.mp hsome
    simp [Totp.verify_totp, totpMatchVerify, hdec, hper, hw1, hcm, admissible]

/-- Witness for C10: step 30s at time 3000 (center 100): codes for counters
99 and 101 fail with the omitted window, succeed with a 30-second window. -/
theorem default_window_is_exact_step_witness :
    (∀ token stored,
      tEx.verify_totp_default gEx token (tEx.generate_totp_secret rawEx 30)
          stored 3000 =
        tEx.verify_totp gEx token (tEx.generate_totp_secret rawEx 30) stored
          3000 0) ∧
    (tEx.verify_totp_default gEx (gEx rawEx (3000 / 30 - 1))
        (tEx.generate_totp_secret rawEx 30) none 3000).result = .ok false ∧
    (tEx.verify_totp_default gEx (gEx rawEx (3000 / 30 + 1))
        (tEx.generate_totp_secret rawEx 30) none 3000).result = .ok false ∧
    (tEx.verify_totp gEx (gEx rawEx (3000 / 30 - 1))
        (tEx.generate_totp_secret rawEx 30) none 3000 30).result = .ok true ∧
    (tEx.verify_totp gEx (gEx rawEx (3000 / 30 + 1))
        (tEx.generate_totp_secret rawEx 30) none 3000 30).result = .ok true :=
  default_window_is_exact_step tEx gEx rawEx 3000 30 (by decide) (by decide)
    (by decide) (by decide)

end FlaskSecurity
